import Mathlib

/- Shallow embedding of the vida-laboral record-reconstruction code of this
   repository: reorganizar_datos_completo.py (the script variant) and
   src/templates/vida_laboral_complete.py (the template variant).
   Text is modelled as List Char; the fixed regular expressions of the source
   are implemented as explicit scanning functions with the exact
   leftmost-match and greedy-with-backtracking semantics of Python re. -/

namespace VidaLaboral

/-- Whitespace characters recognised by Python regex \s and str.split. -/
def isWsC (c : Char) : Bool :=
  c = ' ' || c = '\t' || c = '\n' || c = '\r' || c = '\x0b' || c = '\x0c'

/-- ASCII digit 0-9 (Python regex \d on this data). -/
def isDigitC (c : Char) : Bool := 48 ≤ c.toNat && c.toNat ≤ 57

/-- ASCII uppercase letter A-Z. -/
def isUpperC (c : Char) : Bool := 65 ≤ c.toNat && c.toNat ≤ 90

/-- Character class A-Z0-9. -/
def isUpperAlnumC (c : Char) : Bool := isUpperC c || isDigitC c

/-- Uppercase letters of the name pattern class A-ZÁÉÍÓÚÑ. -/
def isNameLetterC (c : Char) : Bool :=
  isUpperC c || c = 'Á' || c = 'É' || c = 'Í' || c = 'Ó' || c = 'Ú' || c = 'Ñ'

/-- Python str.strip. -/
def stripL (l : List Char) : List Char :=
  ((l.dropWhile isWsC).reverse.dropWhile isWsC).reverse

def splitWsGo : List Char → List Char → List (List Char)
  | acc, [] => if acc.isEmpty then [] else [acc.reverse]
  | acc, c :: cs =>
    if isWsC c then
      if acc.isEmpty then splitWsGo [] cs else acc.reverse :: splitWsGo [] cs
    else splitWsGo (c :: acc) cs

/-- Python str.split with no arguments: split on whitespace runs. -/
def splitWsL (l : List Char) : List (List Char) := splitWsGo [] l

/-- Does the first list begin with the second one. -/
def beginsWith : List Char → List Char → Bool
  | _, [] => true
  | [], _ :: _ => false
  | c :: cs, p :: ps => c = p && beginsWith cs ps

/-- Python substring containment (the in operator). -/
def containsSub (pat : List Char) : List Char → Bool
  | [] => beginsWith [] pat
  | c :: cs => beginsWith (c :: cs) pat || containsSub pat cs

/-- Suffix of the text starting at the last occurrence of pat (str.rfind). -/
def suffixFromLast (pat : List Char) : List Char → Option (List Char)
  | [] => if beginsWith [] pat then some [] else none
  | c :: cs =>
    match suffixFromLast pat cs with
    | some r => some r
    | none => if beginsWith (c :: cs) pat then some (c :: cs) else none

def altaPat : List Char := ['A', 'L', 'T', 'A']

def bajaPat : List Char := ['B', 'A', 'J', 'A']

/-- Consume a DD-MM-YYYY shaped prefix, returning the 10 matched characters
    and the remainder. -/
def takeDate : List Char → Option (List Char × List Char)
  | d1 :: d2 :: h1 :: d3 :: d4 :: h2 :: d5 :: d6 :: d7 :: d8 :: rest =>
    if isDigitC d1 && isDigitC d2 && h1 = '-' && isDigitC d3 && isDigitC d4 &&
       h2 = '-' && isDigitC d5 && isDigitC d6 && isDigitC d7 && isDigitC d8 then
      some ([d1, d2, h1, d3, d4, h2, d5, d6, d7, d8], rest)
    else none
  | _ => none

/-- Consume a \s+ whose continuation starts with a non-whitespace pattern:
    greedily skip the whole whitespace run (at least one character). -/
def skipWs1 : List Char → Option (List Char)
  | [] => none
  | c :: cs => if isWsC c then some (cs.dropWhile isWsC) else none

/-- Consume \s+(.+) at the end of a pattern: greedy whitespace, then a
    nonempty remainder group; with backtracking, a run of two or more
    trailing whitespace characters still yields a one-character group. -/
def wsRest (l : List Char) : Option (List Char) :=
  match l with
  | [] => none
  | c :: cs =>
    if isWsC c then
      let after := cs.dropWhile isWsC
      if after.isEmpty then
        if (cs.takeWhile isWsC).isEmpty then none else some ((c :: cs).getLast? |>.toList)
      else some after
    else none

/-- Match ALTA\s+(date)\s+(date) at the head of the text. -/
def matchAlta2At (l : List Char) : Option (List Char × List Char) :=
  if beginsWith l altaPat then
    match skipWs1 (l.drop 4) with
    | none => none
    | some r1 =>
      match takeDate r1 with
      | none => none
      | some (g1, r2) =>
        match skipWs1 r2 with
        | none => none
        | some r3 =>
          match takeDate r3 with
          | none => none
          | some (g2, _) => some (g1, g2)
  else none

/-- re.search of ALTA\s+(date)\s+(date): leftmost match. -/
def searchAlta2 : List Char → Option (List Char × List Char)
  | [] => none
  | c :: cs =>
    match matchAlta2At (c :: cs) with
    | some g => some g
    | none => searchAlta2 cs

/-- Match ALTA\s+(date)\s+(date)\s+(.+) at the head of the text. -/
def matchAlta2RAt (l : List Char) : Option (List Char × List Char × List Char) :=
  if beginsWith l altaPat then
    match skipWs1 (l.drop 4) with
    | none => none
    | some r1 =>
      match takeDate r1 with
      | none => none
      | some (g1, r2) =>
        match skipWs1 r2 with
        | none => none
        | some r3 =>
          match takeDate r3 with
          | none => none
          | some (g2, r4) =>
            match wsRest r4 with
            | none => none
            | some g3 => some (g1, g2, g3)
  else none

/-- re.search of ALTA\s+(date)\s+(date)\s+(.+): leftmost match. -/
def searchAlta2R : List Char → Option (List Char × List Char × List Char)
  | [] => none
  | c :: cs =>
    match matchAlta2RAt (c :: cs) with
    | some g => some g
    | none => searchAlta2R cs

/-- Match BAJA\s+(date)\s+(date)\s+(date)\s+(date) at the head of the text;
    on success also return the remainder after the match, for finditer. -/
def matchBaja4At (l : List Char) :
    Option ((List Char × List Char × List Char × List Char) × List Char) :=
  if beginsWith l bajaPat then
    match skipWs1 (l.drop 4) with
    | none => none
    | some r1 =>
      match takeDate r1 with
      | none => none
      | some (g1, r2) =>
        match skipWs1 r2 with
        | none => none
        | some r3 =>
          match takeDate r3 with
          | none => none
          | some (g2, r4) =>
            match skipWs1 r4 with
            | none => none
            | some r5 =>
              match takeDate r5 with
              | none => none
              | some (g3, r6) =>
                match skipWs1 r6 with
                | none => none
                | some r7 =>
                  match takeDate r7 with
                  | none => none
                  | some (g4, r8) => some ((g1, g2, g3, g4), r8)
  else none

def findAllBaja4Go : Nat → List Char → List (List Char × List Char × List Char × List Char)
  | 0, _ => []
  | _ + 1, [] => []
  | fuel + 1, c :: cs =>
    match matchBaja4At (c :: cs) with
    | some (gs, rest) => gs :: findAllBaja4Go fuel rest
    | none => findAllBaja4Go fuel cs

/-- re.finditer of the four-date BAJA pattern: all non-overlapping matches. -/
def findAllBaja4 (l : List Char) : List (List Char × List Char × List Char × List Char) :=
  findAllBaja4Go (l.length + 1) l

/-- Match BAJA\s+date\s+date\s+date\s+date\s+(.+) at the head of the text. -/
def matchBaja4RAt (l : List Char) :
    Option (List Char × List Char × List Char × List Char × List Char) :=
  match matchBaja4At l with
  | none => none
  | some ((g1, g2, g3, g4), r8) =>
    match wsRest r8 with
    | none => none
    | some g5 => some (g1, g2, g3, g4, g5)

/-- re.search of the four-date BAJA pattern with trailing data group. -/
def searchBaja4R : List Char → Option (List Char × List Char × List Char × List Char × List Char)
  | [] => none
  | c :: cs =>
    match matchBaja4RAt (c :: cs) with
    | some g => some g
    | none => searchBaja4R cs

/-- re.search of (ALTA|BAJA)\s+\d{2}-\d{2}-\d{4}: is this a date row. -/
def tieneFechaGo : List Char → Bool
  | [] => false
  | c :: cs =>
    ((beginsWith (c :: cs) altaPat || beginsWith (c :: cs) bajaPat) &&
      (match skipWs1 ((c :: cs).drop 4) with
       | some r => (takeDate r).isSome
       | none => false)) ||
    tieneFechaGo cs

def tieneFechaL (l : List Char) : Bool := tieneFechaGo l

/-- Match (\d{2}\s+\d{9,10}) at the head of the text: two digits, a
    whitespace run, then greedily nine or ten digits. -/
def matchAfilAt (l : List Char) : Option (List Char) :=
  match l with
  | a :: b :: rest =>
    if isDigitC a && isDigitC b then
      let ws := rest.takeWhile isWsC
      if ws.isEmpty then none
      else
        let after := rest.drop ws.length
        let ds := after.takeWhile isDigitC
        if 9 ≤ ds.length then some (a :: b :: (ws ++ ds.take 10)) else none
    else none
  | _ => none

/-- extraer_afiliacion: leftmost match of the affiliation-number pattern. -/
def extraerAfiliacionL : List Char → Option (List Char)
  | [] => none
  | c :: cs =>
    match matchAfilAt (c :: cs) with
    | some g => some g
    | none => extraerAfiliacionL cs

/-- Match (\d\s+\d{8,9}[A-Z]) at the head of the text: by greedy matching
    with backtracking the digit run after the whitespace must have length
    exactly 8 or 9 and be immediately followed by an uppercase letter. -/
def matchDniAt (l : List Char) : Option (List Char) :=
  match l with
  | a :: rest =>
    if isDigitC a then
      let ws := rest.takeWhile isWsC
      if ws.isEmpty then none
      else
        let after := rest.drop ws.length
        let ds := after.takeWhile isDigitC
        if ds.length = 9 || ds.length = 8 then
          match after.drop ds.length with
          | u :: _ => if isUpperC u then some (a :: (ws ++ ds ++ [u])) else none
          | [] => none
        else none
    else none
  | [] => none

/-- extraer_dni: leftmost match of the national-id pattern. -/
def extraerDniL : List Char → Option (List Char)
  | [] => none
  | c :: cs =>
    match matchDniAt (c :: cs) with
    | some g => some g
    | none => extraerDniL cs

/-- re.sub of \s+[A-Z0-9]{2,4}$ with the empty string: remove a trailing
    2-4 character alphanumeric token together with the whitespace run
    before it, when present. -/
def stripTrailAlnumCode (l : List Char) : List Char :=
  let r := l.reverse
  let run := r.takeWhile isUpperAlnumC
  if 2 ≤ run.length && run.length ≤ 4 then
    let r2 := r.drop run.length
    let wsr := r2.takeWhile isWsC
    if wsr.isEmpty then l else (r2.drop wsr.length).reverse
  else l

def stripTrailLetterCodesGo : Nat → List Char → List Char
  | 0, l => l
  | fuel + 1, l =>
    let r := l.reverse
    let run := r.takeWhile isUpperAlnumC
    if 2 ≤ run.length && run.length ≤ 4 &&
       (match run.getLast? with | some c => isUpperC c | none => false) then
      let r2 := r.drop run.length
      let wsr := r2.takeWhile isWsC
      if wsr.isEmpty then l else stripTrailLetterCodesGo fuel ((r2.drop wsr.length).reverse)
    else l

/-- re.sub of \s+[A-Z][A-Z0-9]{1,3}(\s+[A-Z][A-Z0-9]{1,3})*$ with the empty
    string: repeatedly peel trailing 2-4 character codes that start with a
    letter, each preceded by a whitespace run. -/
def stripTrailLetterCodes (l : List Char) : List Char :=
  stripTrailLetterCodesGo l.length l

/-- Python truthiness of an optional string value. -/
def truthy : Option String → Bool
  | some s => !s.data.isEmpty
  | none => false

/-- Python truthiness for an optional character-list value. -/
def truthyL : Option (List Char) → Bool
  | some s => !s.isEmpty
  | none => false

/-- Matches of the name pattern ([A-ZÁÉÍÓÚÑ][A-ZÁÉÍÓÚÑ\s]{8,60}) found by
    re.findall: greedy, non-overlapping, scanned left to right. -/
def findNamesGo : Nat → List Char → List (List Char)
  | 0, _ => []
  | _ + 1, [] => []
  | fuel + 1, c :: cs =>
    if isNameLetterC c then
      let contRun := cs.takeWhile (fun d => isNameLetterC d || isWsC d)
      if 8 ≤ contRun.length then
        let taken := contRun.take 60
        (c :: taken) :: findNamesGo fuel (cs.drop taken.length)
      else findNamesGo fuel cs
    else findNamesGo fuel cs

def findNames (l : List Char) : List (List Char) := findNamesGo (l.length + 1) l

/-- re.match of ^[A-Z0-9]{2,4}$. -/
def isAlnum24 (l : List Char) : Bool :=
  2 ≤ l.length && l.length ≤ 4 && l.all isUpperAlnumC

/-- re.sub of ^[A-Z]\s+ with the empty string. -/
def subLeadLetter (l : List Char) : List Char :=
  match l with
  | c :: rest =>
    if isUpperC c then
      let w := rest.takeWhile isWsC
      if w.isEmpty then l else rest.drop w.length
    else l
  | [] => l

/-- Python str.isupper on the single-character words reachable here; the
    words consist only of characters of the uppercase name class. -/
def isUpperTok1 (w : List Char) : Bool :=
  match w with
  | [c] => isNameLetterC c
  | _ => false

/-- Drop trailing single-letter uppercase words (the while loop of
    limpiar_nombre), from the right. -/
def dropTrailSingles (ws : List (List Char)) : List (List Char) :=
  (ws.reverse.dropWhile isUpperTok1).reverse

def joinSpTokens : List (List Char) → List Char
  | [] => []
  | [t] => t
  | t :: rest => t ++ ' ' :: joinSpTokens rest

/-- Per-candidate body of the limpiar_nombre loop: the validity filter and
    the cleanup transformations; some name means return it. -/
def procesarNombre (m : List Char) : Option (List Char) :=
  let nombre := stripL m
  let palabras := splitWsL nombre
  if 2 ≤ palabras.length &&
     !(match nombre with | d :: _ => isDigitC d | [] => false) &&
     !isAlnum24 nombre &&
     10 ≤ nombre.length then
    let n1 := stripL (subLeadLetter nombre)
    let n2 := stripL (stripTrailAlnumCode n1)
    let pal := splitWsL n2
    let n3 := if 3 ≤ pal.length then stripL (joinSpTokens (dropTrailSingles pal)) else n2
    if 2 ≤ (splitWsL n3).length && 10 ≤ n3.length then some n3 else none
  else none

def firstNombre : List (List Char) → Option (List Char)
  | [] => none
  | m :: ms =>
    match procesarNombre m with
    | some n => some n
    | none => firstNombre ms

/-- limpiar_nombre: extract and clean the person name from a line,
    optionally removing a leading national-id check letter first. -/
def limpiarNombreL (texto0 : List Char) (dni : Option (List Char)) : Option (List Char) :=
  let t1 := stripL texto0
  let texto :=
    match dni with
    | some d =>
      match d.getLast? with
      | some letra => if beginsWith t1 [letra, ' '] then stripL (t1.drop 2) else t1
      | none => t1
    | none => t1
  firstNombre (findNames texto)

/-- Python str.isdigit on a token. -/
def isdigitTok (t : List Char) : Bool := !t.isEmpty && t.all isDigitC

/-- re.match of ^\d+,\d{2}$: the pivot token shape. -/
def pivotTok (t : List Char) : Bool :=
  let ds := t.takeWhile isDigitC
  !ds.isEmpty &&
  (match t.drop ds.length with
   | [',', a, b] => isDigitC a && isDigitC b
   | _ => false)

/-- re.match of ^\d+,\d+$ or of ^\d{3,4}$: the part-time percentage test of
    the ALTA and standalone BAJA branches of the script variant. -/
def broadCtp (t : List Char) : Bool :=
  (let ds := t.takeWhile isDigitC
   !ds.isEmpty &&
   (match t.drop ds.length with
    | ',' :: es => !es.isEmpty && es.all isDigitC
    | _ => false)) ||
  (3 ≤ t.length && t.length ≤ 4 && t.all isDigitC)

/-- re.match of ^(\d{3,4}|0,\d{3})$: the part-time percentage test of the
    template variant and of the combined branch of the script variant. -/
def narrowCtp (t : List Char) : Bool :=
  (3 ≤ t.length && t.length ≤ 4 && t.all isDigitC) ||
  (match t with
   | '0' :: ',' :: es => es.length = 3 && es.all isDigitC
   | _ => false)

/-- Index of the first pivot-shaped token of the data tail. -/
def firstPivotIdx (partes : List (List Char)) : Option Nat :=
  partes.findIdx? pivotTok

/-- The seven coded fields extracted from a data tail. -/
structure TailFields where
  gcm : Option String
  tc : Option String
  ctp : Option String
  tipos : Option String
  ims : Option String
  total : Option String
  diasCot : Option String
deriving DecidableEq, Repr

def tfNada : TailFields := ⟨none, none, none, none, none, none, none⟩

def toS (l : List Char) : String := ⟨l⟩

/-- Coded-field extraction from the token tail, shared by all branches.
    The guard of at least six tokens comes first; contribution group and
    contract type are positional; the remaining fields are anchored on the
    first pivot token when the Python condition idx_tipos and idx_tipos >= 2
    holds (note index 0 is falsy); fb selects the script variant, whose
    else branch falls back to the last four tokens, while the template
    variant leaves the fields unset. -/
def tailFieldsFrom (fb : Bool) (ctpOk : List Char → Bool) (partes : List (List Char)) :
    TailFields :=
  if partes.length < 6 then tfNada
  else
    let gcm := if isdigitTok (partes.headD []) then some (toS (partes.headD [])) else none
    let tc := (partes.get? 1).map toS
    let resFallback : TailFields :=
      ⟨gcm, tc, some "100",
        (partes.get? (partes.length - 4)).map toS,
        (partes.get? (partes.length - 3)).map toS,
        (partes.get? (partes.length - 2)).map toS,
        (partes.get? (partes.length - 1)).map toS⟩
    let resNada : TailFields := ⟨gcm, tc, none, none, none, none, none⟩
    match firstPivotIdx partes with
    | some i =>
      if i ≠ 0 && 2 ≤ i then
        ⟨gcm, tc,
          if 2 < i then
            (if ctpOk (partes.getD 2 []) then some (toS (partes.getD 2 [])) else some "100")
          else some "100",
          (partes.get? i).map toS,
          (partes.get? (i + 1)).map toS,
          (partes.get? (i + 2)).map toS,
          (partes.get? (i + 3)).map toS⟩
      else if fb then resFallback else resNada
    | none => if fb then resFallback else resNada

/-- Result dictionary of parsear_fila_fechas. -/
structure FilaFechas where
  situacion : Option String
  fRealAlta : Option String
  fEfectoAlta : Option String
  fRealSit : Option String
  fEfectoSit : Option String
  tail : TailFields
deriving DecidableEq, Repr

def ffVacia : FilaFechas := ⟨none, none, none, none, none, tfNada⟩

/-- Date resolution of the combined ALTA and BAJA branch: hire dates from
    the first two-date ALTA match, termination dates from the last
    four-date BAJA match, which also supplies the hire dates when no ALTA
    match was found. -/
def fechasCombinadas (t : List Char) :
    Option String × Option String × Option String × Option String :=
  let altaM := searchAlta2 t
  let fra0 : Option String := altaM.map (fun g => toS g.1)
  let fea0 : Option String := altaM.map (fun g => toS g.2)
  match (findAllBaja4 t).getLast? with
  | some (g1, g2, g3, g4) =>
    if truthy fra0 then (fra0, fea0, some (toS g3), some (toS g4))
    else (some (toS g1), some (toS g2), some (toS g3), some (toS g4))
  | none => (fra0, fea0, none, none)

/-- Tail extraction of the combined branch: the text from the last BAJA
    occurrence onward is searched for the four-date pattern with trailing
    data, which is stripped of trailing letter codes and tokenised. -/
def tailCombinada (fb : Bool) (t : List Char) : TailFields :=
  match suffixFromLast bajaPat t with
  | some sufijo =>
    match searchBaja4R sufijo with
    | some (_, _, _, _, rest) =>
      tailFieldsFrom fb narrowCtp (splitWsL (stripL (stripTrailLetterCodes rest)))
    | none => tfNada
  | none => tfNada

/-- parsear_fila_fechas of the script variant, on already-stripped text. -/
def parseSCore (texto : List Char) : FilaFechas :=
  let tieneA := containsSub altaPat texto
  let tieneB := containsSub bajaPat texto
  if tieneA && tieneB then
    let f := fechasCombinadas texto
    ⟨some "ALTA/BAJA", f.1, f.2.1, f.2.2.1, f.2.2.2, tailCombinada true texto⟩
  else if tieneA then
    match searchAlta2R texto with
    | some (g1, g2, rest) =>
      ⟨some "ALTA", some (toS g1), some (toS g2), none, none,
        tailFieldsFrom true broadCtp (splitWsL (stripL (stripTrailAlnumCode rest)))⟩
    | none => ⟨some "ALTA", none, none, none, none, tfNada⟩
  else if tieneB then
    match searchBaja4R texto with
    | some (g1, g2, g3, g4, rest) =>
      ⟨some "BAJA", some (toS g1), some (toS g2), some (toS g3), some (toS g4),
        tailFieldsFrom true broadCtp (splitWsL (stripL (stripTrailLetterCodes rest)))⟩
    | none => ⟨some "BAJA", none, none, none, none, tfNada⟩
  else ffVacia

/-- parsear_fila_fechas of the script variant, which strips its input. -/
def parsearFilaFechasS (t : List Char) : FilaFechas := parseSCore (stripL t)

/-- parsear_fila_fechas of the template variant: it does not strip its
    input, its three branches all use the narrow part-time test, it strips
    trailing alphanumeric codes in both the ALTA and the BAJA branch, and
    none of its branches has a no-pivot fallback. -/
def parseTCore (texto : List Char) : FilaFechas :=
  let tieneA := containsSub altaPat texto
  let tieneB := containsSub bajaPat texto
  if tieneA && tieneB then
    let f := fechasCombinadas texto
    ⟨some "ALTA/BAJA", f.1, f.2.1, f.2.2.1, f.2.2.2, tailCombinada false texto⟩
  else if tieneA then
    match searchAlta2R texto with
    | some (g1, g2, rest) =>
      ⟨some "ALTA", some (toS g1), some (toS g2), none, none,
        tailFieldsFrom false narrowCtp (splitWsL (stripL (stripTrailAlnumCode rest)))⟩
    | none => ⟨some "ALTA", none, none, none, none, tfNada⟩
  else if tieneB then
    match searchBaja4R texto with
    | some (g1, g2, g3, g4, rest) =>
      ⟨some "BAJA", some (toS g1), some (toS g2), some (toS g3), some (toS g4),
        tailFieldsFrom false narrowCtp (splitWsL (stripL (stripTrailAlnumCode rest)))⟩
    | none => ⟨some "BAJA", none, none, none, none, tfNada⟩
  else ffVacia

/-- A raw extracted table row: one optional text cell per column. -/
abbrev Row := List (Option String)

def joinSpStrs : List String → List Char
  | [] => []
  | [s] => s.data
  | s :: rest => s.data ++ ' ' :: joinSpStrs rest

/-- Row text of the script variant: joins the cells that are neither
    missing nor the literal text nan. -/
def filaTextoS (r : Row) : List Char :=
  joinSpStrs (r.filterMap (fun c =>
    match c with
    | some s => if s = "nan" then none else some s
    | none => none))

/-- Row text of the template variant: joins all non-missing cells. -/
def filaTextoT (r : Row) : List Char := joinSpStrs (r.filterMap id)

/-- An output record of the script variant, one field per dictionary key. -/
structure EmpleadoS where
  afiliacion : Option String
  situacion : Option String
  dni : Option String
  fRealAlta : Option String
  fEfectoAlta : Option String
  fRealSit : Option String
  fEfectoSit : Option String
  nombre : Option String
  gcm : Option String
  tc : Option String
  ctp : Option String
  epoc : Option String
  tipos : Option String
  ims : Option String
  total : Option String
  diasCot : Option String
  clv : Option String
deriving DecidableEq, Repr

def mkEmpleadoS (afil dni nombre clv : Option String) : EmpleadoS :=
  ⟨afil, none, dni, none, none, none, none, nombre,
    none, none, none, none, none, none, none, none, clv⟩

def codigoGo : List (Option String) → Option String
  | [] => none
  | none :: rest => codigoGo rest
  | some v :: rest =>
    let t := stripL v.data
    let run := t.reverse.takeWhile isUpperAlnumC
    if 2 ≤ run.length then
      let cod := (run.take 4).reverse
      if cod.length = 4 && cod.all isDigitC then codigoGo rest else some (toS cod)
    else codigoGo rest

/-- extraer_codigo_situacion: scan the cells in reverse column order for a
    trailing 2-4 character alphanumeric code, skipping codes that are four
    or more digits. -/
def extraerCodigoSituacion (r : Row) : Option String := codigoGo r.reverse

/-- The merge of a parsed date row into the open worker of the script
    variant: first-truthy-wins for hire dates and codes, the termination
    dates always overwritten, the part-time percentage defaulted to 100
    when absent on both sides. -/
def mergeFecha (emp : EmpleadoS) (ff : FilaFechas) (codigoRow : Option String) : EmpleadoS :=
  { afiliacion := emp.afiliacion
    situacion :=
      if truthy emp.situacion && truthy ff.situacion then
        (if emp.situacion ≠ ff.situacion then some "ALTA/BAJA" else emp.situacion)
      else ff.situacion
    dni := emp.dni
    fRealAlta := if truthy emp.fRealAlta then emp.fRealAlta else ff.fRealAlta
    fEfectoAlta := if truthy emp.fEfectoAlta then emp.fEfectoAlta else ff.fEfectoAlta
    fRealSit := ff.fRealSit
    fEfectoSit := ff.fEfectoSit
    nombre := emp.nombre
    gcm := if truthy emp.gcm then emp.gcm else ff.tail.gcm
    tc := if truthy emp.tc then emp.tc else ff.tail.tc
    ctp :=
      if truthy ff.tail.ctp then ff.tail.ctp
      else if emp.ctp = none then some "100" else emp.ctp
    epoc := emp.epoc
    tipos := if truthy emp.tipos then emp.tipos else ff.tail.tipos
    ims := if truthy emp.ims then emp.ims else ff.tail.ims
    total := if truthy emp.total then emp.total else ff.tail.total
    diasCot := if truthy emp.diasCot then emp.diasCot else ff.tail.diasCot
    clv :=
      if truthy emp.clv then emp.clv
      else if truthy codigoRow then codigoRow else emp.clv }

/-- Direct assignment of parsed date-row fields onto a record, as done by
    the retroactive and lookahead attachment blocks of the script variant:
    eleven fields overwritten, part-time percentage and code untouched. -/
def attachFecha (emp : EmpleadoS) (ff : FilaFechas) : EmpleadoS :=
  { emp with
    situacion := ff.situacion
    fRealAlta := ff.fRealAlta
    fEfectoAlta := ff.fEfectoAlta
    fRealSit := ff.fRealSit
    fEfectoSit := ff.fEfectoSit
    gcm := ff.tail.gcm
    tc := ff.tail.tc
    tipos := ff.tail.tipos
    ims := ff.tail.ims
    total := ff.tail.total
    diasCot := ff.tail.diasCot }

/-- Search the last five emitted records for the first one matching the
    prior identity and still lacking a situation, and attach the parsed
    date fields to it in place. -/
def windowAttach (afilAnt dniAnt : Option String) (ff : FilaFechas)
    (emps : List EmpleadoS) : List EmpleadoS :=
  let start := emps.length - 5
  let window := emps.drop start
  match window.findIdx? (fun e =>
      (e.afiliacion == afilAnt || e.dni == dniAnt) && !truthy e.situacion) with
  | some j =>
    match window.get? j with
    | some e => emps.set (start + j) (attachFecha e ff)
    | none => emps
  | none => emps

def retroGo : List Row → List Char → List EmpleadoS → List EmpleadoS
  | [], _, emps => emps
  | r :: rs, texto, emps =>
    let filaAnt := filaTextoS r
    let afilAnt := (extraerAfiliacionL (stripL filaAnt)).map toS
    let dniAnt := (extraerDniL (stripL filaAnt)).map toS
    if truthy afilAnt || truthy dniAnt then
      windowAttach afilAnt dniAnt (parsearFilaFechasS texto) emps
    else retroGo rs texto emps

/-- Retroactive association for a date row with no open worker: scan the
    up to three prior rows in ascending order for one bearing an identity,
    then attach within the five-record trailing buffer. -/
def retroAttach (prev : List Row) (texto : List Char)
    (emps : List EmpleadoS) : List EmpleadoS :=
  retroGo (prev.drop (prev.length - 3)) texto emps

/-- The lookahead block the script runs when an identity row closes an open
    worker; it reads the row at the current index, which is the identity
    row itself, so the date test can never succeed there. -/
def lookaheadAdjust (row : Row) (w : EmpleadoS) : EmpleadoS :=
  let filaSig := filaTextoS row
  if tieneFechaL filaSig &&
     !(truthy ((extraerAfiliacionL (stripL filaSig)).map toS) ||
       truthy ((extraerDniL (stripL filaSig)).map toS)) then
    attachFecha w (parsearFilaFechasS filaSig)
  else w

def nombreDeColumnas (dni : Option String) : List (Option String) → Option (List Char)
  | [] => none
  | none :: rest => nombreDeColumnas dni rest
  | some v :: rest =>
    match limpiarNombreL v.data (dni.map String.data) with
    | some n => if !n.isEmpty then some n else nombreDeColumnas dni rest
    | none => nombreDeColumnas dni rest

/-- Reconstruction state of the script variant: emitted records plus the
    current open worker. -/
structure SState where
  empleados : List EmpleadoS
  actual : Option EmpleadoS
deriving DecidableEq, Repr

/-- One iteration of the row loop of reorganizar_datos_completo.py. -/
def scriptStep (prev : List Row) (row : Row) (st : SState) : SState :=
  let texto := filaTextoS row
  if (stripL texto).isEmpty then st
  else if tieneFechaL texto then
    match st.actual with
    | some emp =>
      ⟨st.empleados ++
        [mergeFecha emp (parsearFilaFechasS texto) (extraerCodigoSituacion row)], none⟩
    | none => ⟨retroAttach prev texto st.empleados, none⟩
  else
    let afil := (extraerAfiliacionL (stripL texto)).map toS
    let dni := (extraerDniL (stripL texto)).map toS
    if truthy afil || truthy dni then
      let cerr :=
        match st.actual with
        | some w => [lookaheadAdjust row w]
        | none => []
      let nombre0 := limpiarNombreL texto (dni.map String.data)
      let nombre := if truthyL nombre0 then nombre0 else nombreDeColumnas dni row
      ⟨st.empleados ++ cerr,
        some (mkEmpleadoS afil dni (nombre.map toS) (extraerCodigoSituacion row))⟩
    else st

def scriptLoopGo : List Row → List Row → SState → SState
  | _, [], st => st
  | prev, r :: rest, st => scriptLoopGo (prev ++ [r]) rest (scriptStep prev r st)

/-- The full row loop of the script variant; the final search loop runs
    over the empty range, so a worker still open at the end of the stream
    is appended as-is. -/
def scriptReconstruct (rows : List Row) : List EmpleadoS :=
  let st := scriptLoopGo [] rows ⟨[], none⟩
  st.empleados ++ (match st.actual with | some w => [w] | none => [])

def nombreCorrupto : String := "LACIOSN ÓZRA NÓCIAZITCO DE ANTCUE OGDICÓ"

/-- Lexicographic order on character lists by code point, the comparison
    Python applies to the affiliation strings. -/
def strLeB : List Char → List Char → Bool
  | [], _ => true
  | _ :: _, [] => false
  | a :: as, b :: bs =>
    if a.toNat < b.toNat then true
    else if b.toNat < a.toNat then false
    else strLeB as bs

/-- Sort key order: affiliation numbers ascending, missing values last. -/
def afilKeyLe : Option String → Option String → Bool
  | _, none => true
  | none, some _ => false
  | some x, some y => strLeB x.data y.data

def sanLe (e1 e2 : EmpleadoS) : Prop := afilKeyLe e1.afiliacion e2.afiliacion = true

instance sanLeDec : DecidableRel sanLe := fun e1 e2 => by
  unfold sanLe; infer_instance

/-- The module-level sanitization of the script variant: the corrupted-name
    filter, the dropna over the three identity columns, and the sort by
    affiliation number with missing values last.  A DataFrame built from an
    empty record list has no columns at all, and pandas dropna with a
    subset of missing columns raises KeyError; that error path is the
    error value.  The sort itself is modelled as a stable sort on the key;
    the source calls pandas sort_values with the default, unstable,
    quicksort kind, which guarantees key order but not tie order. -/
def scriptSanitize (l : List EmpleadoS) : Except String (List EmpleadoS) :=
  if l.isEmpty then .error "KeyError: dropna subset columns missing"
  else
    let l1 := l.filter (fun e => e.nombre != some nombreCorrupto)
    let l2 := l1.filter (fun e =>
      !(e.afiliacion == none && e.dni == none && e.nombre == none))
    .ok (List.insertionSort sanLe l2)

def scriptPipeline (rows : List Row) : Except String (List EmpleadoS) :=
  scriptSanitize (scriptReconstruct rows)

/-- An output record of the template variant. -/
structure EmpleadoT where
  codigoCliente : Option String
  nombre : Option String
  dni : Option String
  afiliacion : Option String
  situacion : Option String
  fRealAlta : Option String
  fEfectoAlta : Option String
  fRealSit : Option String
  fEfectoSit : Option String
  gcm : Option String
  tc : Option String
  ctp : Option String
  tipos : Option String
  ims : Option String
  total : Option String
  diasCot : Option String
deriving DecidableEq, Repr

def vacioT : EmpleadoT :=
  ⟨none, none, none, none, none, none, none, none,
    none, none, none, none, none, none, none, none⟩

structure TState where
  empleados : List EmpleadoT
  actual : Option EmpleadoT
deriving DecidableEq, Repr

/-- The ALTA half of the combined split: a copy of the open worker with the
    hire dates and three codes overwritten; every other field, including
    any previously merged termination dates, is kept from the copy. -/
def empAltaOf (emp : EmpleadoT) (ff : FilaFechas) : EmpleadoT :=
  { emp with
    situacion := some "ALTA"
    fRealAlta := ff.fRealAlta
    fEfectoAlta := ff.fEfectoAlta
    gcm := ff.tail.gcm
    tc := ff.tail.tc
    ctp := ff.tail.ctp }

/-- The BAJA half of the combined split: a copy of the open worker with all
    four dates and all coded fields overwritten from the parsed line. -/
def empBajaOf (emp : EmpleadoT) (ff : FilaFechas) : EmpleadoT :=
  { emp with
    situacion := some "BAJA"
    fRealAlta := ff.fRealAlta
    fEfectoAlta := ff.fEfectoAlta
    fRealSit := ff.fRealSit
    fEfectoSit := ff.fEfectoSit
    gcm := ff.tail.gcm
    tc := ff.tail.tc
    ctp := ff.tail.ctp
    tipos := ff.tail.tipos
    ims := ff.tail.ims
    total := ff.tail.total
    diasCot := ff.tail.diasCot }

/-- The single-situation update of the template variant. -/
def actualizaT (emp : EmpleadoT) (ff : FilaFechas) (sit : String) : EmpleadoT :=
  { emp with
    situacion := some sit
    fRealAlta := ff.fRealAlta
    fEfectoAlta := ff.fEfectoAlta
    fRealSit := if sit = "BAJA" then ff.fRealSit else emp.fRealSit
    fEfectoSit := if sit = "BAJA" then ff.fEfectoSit else emp.fEfectoSit
    gcm := ff.tail.gcm
    tc := ff.tail.tc
    ctp := ff.tail.ctp
    tipos := ff.tail.tipos
    ims := ff.tail.ims
    total := ff.tail.total
    diasCot := ff.tail.diasCot }

/-- Identity half of a template-variant iteration: on a row bearing a
    recognisable identity, the open worker is closed only when its name
    field is set, and a fresh worker with the extracted identity opens. -/
def templateIdPhase (texto : List Char) (afil dni : Option String) (st : TState) : TState :=
  if truthy afil || truthy dni then
    let cerr :=
      match st.actual with
      | some w => if truthy w.nombre then [w] else []
      | none => []
    let nombre0 := limpiarNombreL texto (dni.map String.data)
    let nuevo :=
      { vacioT with
        afiliacion := afil
        dni := dni
        nombre := if truthyL nombre0 then nombre0.map toS else none }
    ⟨st.empleados ++ cerr, some nuevo⟩
  else st

/-- Date half of a template-variant iteration: when a worker is open and
    the same row parses to a situation, either split a combined line into
    two records or merge a single situation into the open worker. -/
def templateFechaPhase (texto : List Char) (afil dni : Option String) (st1 : TState) : TState :=
  match st1.actual with
  | none => st1
  | some emp =>
    let ff := parseTCore texto
    match ff.situacion with
    | none => st1
    | some s =>
      if s = "ALTA/BAJA" then
        let nuevo :=
          { vacioT with
            afiliacion := if truthy afil then afil else none
            dni := if truthy dni then dni else none }
        ⟨st1.empleados ++ [empAltaOf emp ff, empBajaOf emp ff], some nuevo⟩
      else if s = "ALTA" || s = "BAJA" then
        ⟨st1.empleados, some (actualizaT emp ff s)⟩
      else st1

/-- One iteration of the row loop of _reorganizar_datos_completo of the
    template variant.  An identity row closes the open worker only when
    its name field is set; the same row is then also examined as a date
    row against the freshly opened worker. -/
def templateStep (row : Row) (st : TState) : TState :=
  let texto := filaTextoT row
  let afil := (extraerAfiliacionL texto).map toS
  let dni := (extraerDniL texto).map toS
  templateFechaPhase texto afil dni (templateIdPhase texto afil dni st)

/-- The full row loop of the template variant; the trailing open worker is
    emitted only when its name field is set. -/
def templateReconstruct (rows : List Row) : List EmpleadoT :=
  let st := rows.foldl (fun s r => templateStep r s) ⟨[], none⟩
  st.empleados ++
    (match st.actual with
     | some w => if truthy w.nombre then [w] else []
     | none => [])

theorem strLeB_total (a b : List Char) : strLeB a b = true ∨ strLeB b a = true := by
  induction a generalizing b with
  | nil => left; rfl
  | cons x xs ih =>
    cases b with
    | nil => right; rfl
    | cons y ys =>
      by_cases h1 : x.toNat < y.toNat
      · left; simp [strLeB, h1]
      · by_cases h2 : y.toNat < x.toNat
        · right; simp [strLeB, h2]
        · cases ih ys with
          | inl h => left; simp [strLeB, h1, h2, h]
          | inr h => right; simp [strLeB, h1, h2, h]

theorem strLeB_trans (a b c : List Char) (hab : strLeB a b = true)
    (hbc : strLeB b c = true) : strLeB a c = true := by
  induction a generalizing b c with
  | nil => rfl
  | cons x xs ih =>
    cases b with
    | nil => simp [strLeB] at hab
    | cons y ys =>
      cases c with
      | nil => simp [strLeB] at hbc
      | cons z zs =>
        simp only [strLeB] at hab hbc ⊢
        by_cases h1 : x.toNat < y.toNat
        · by_cases h3 : y.toNat < z.toNat
          · have hxz : x.toNat < z.toNat := by omega
            simp [hxz]
          · by_cases h4 : z.toNat < y.toNat
            · rw [if_neg h3, if_pos h4] at hbc
              exact absurd hbc (by simp)
            · have hxz : x.toNat < z.toNat := by omega
              simp [hxz]
        · by_cases h2 : y.toNat < x.toNat
          · rw [if_neg h1, if_pos h2] at hab
            exact absurd hab (by simp)
          · rw [if_neg h1, if_neg h2] at hab
            by_cases h3 : y.toNat < z.toNat
            · have hxz : x.toNat < z.toNat := by omega
              simp [hxz]
            · by_cases h4 : z.toNat < y.toNat
              · rw [if_neg h3, if_pos h4] at hbc
                exact absurd hbc (by simp)
              · rw [if_neg h3, if_neg h4] at hbc
                have hxz : ¬x.toNat < z.toNat := by omega
                have hzx : ¬z.toNat < x.toNat := by omega
                rw [if_neg hxz, if_neg hzx]
                exact ih ys zs hab hbc

theorem afilKeyLe_total (a b : Option String) :
    afilKeyLe a b = true ∨ afilKeyLe b a = true := by
  cases a <;> cases b <;> simp [afilKeyLe] <;> apply strLeB_total

theorem afilKeyLe_trans (a b c : Option String) (hab : afilKeyLe a b = true)
    (hbc : afilKeyLe b c = true) : afilKeyLe a c = true := by
  cases a <;> cases b <;> cases c <;> simp [afilKeyLe] at hab hbc ⊢ <;>
    first
      | rfl
      | exact strLeB_trans _ _ _ hab hbc
      | skip

instance sanLeTotal : IsTotal EmpleadoS sanLe :=
  ⟨fun a b => by unfold sanLe; exact afilKeyLe_total _ _⟩

instance sanLeTrans : IsTrans EmpleadoS sanLe :=
  ⟨fun a b c hab hbc => by
    unfold sanLe at hab hbc ⊢; exact afilKeyLe_trans _ _ _ hab hbc⟩

theorem tailFieldsFrom_small (fb : Bool) (ctpOk : List Char → Bool)
    (partes : List (List Char)) (h : partes.length < 6) :
    tailFieldsFrom fb ctpOk partes = tfNada := by
  unfold tailFieldsFrom
  rw [if_pos h]

/-- Projection of the sanitizer result: some output on success, none when
    the pandas path raises. -/
def resOk? : Except String (List EmpleadoS) → Option (List EmpleadoS)
  | .ok l => some l
  | .error _ => none

/-- Row sequence of the worked example of the specification: an identity
    row, a name-only row, and a hire date row. -/
def filasC2 : List Row :=
  [[some "... 12 345678901 ..."], [some "JUAN PEREZ GARCIA"],
   [some "ALTA 10-05-2018 10-05-2018 08 540 1,80 1,50 3,30 1794"]]

/-- C2, counterexample.  On the row sequence of the claim the script
    reconstructor emits one record whose name is missing, because the
    name-only row carries no identity and no date keyword and is skipped,
    and whose contribution group is missing, because the trailing token
    1794 is stripped as a 2-4 character code, leaving five tail tokens,
    fewer than the six the coded-field block requires.  The claim states
    the record carries name JUAN PEREZ GARCIA and contribution-group 08. -/
theorem C2_counterexample :
    (scriptReconstruct filasC2).map (fun e => e.nombre) = [none] ∧
    (scriptReconstruct filasC2).map (fun e => e.gcm) = [none] ∧
    (scriptReconstruct filasC2).map (fun e => e.tc) = [none] := by
  decide

/-- C2 (amended).  On the row sequence of the claim the script
    reconstructor produces exactly one episode record with affiliation
    12 345678901, status ALTA, both hire dates 10-05-2018 and part-time
    percentage 100, but with the name and every other coded field unset:
    the name-only row is never consumed, and the trailing token 1794 is
    stripped as a trailing code so that the tail has fewer than six tokens
    and no coded field is assigned. -/
theorem C2_theorem :
    scriptReconstruct filasC2 =
      [⟨some "12 345678901", some "ALTA", none, some "10-05-2018", some "10-05-2018",
        none, none, none, none, none, some "100", none, none, none, none, none, none⟩] := by
  decide

/-- Rows exercising the combined split after an earlier termination line:
    an identity row, a standalone four-date BAJA row, then a combined
    ALTA and BAJA row. -/
def filasC1 : List Row :=
  [[some "12 345678901"],
   [some "BAJA 01-01-2020 01-01-2020 02-02-2020 02-02-2020 X"],
   [some "ALTA 03-03-2021 03-03-2021 X BAJA 04-04-2021 04-04-2021 05-05-2021 05-05-2021 Y"]]

/-- C1, counterexample.  The template reconstructor does emit exactly two
    records for the combined line, but the ALTA record is a copy of the
    open worker and keeps the termination dates merged from the earlier
    standalone BAJA row: the claim that the HIRE record carries only the
    two hire dates and no termination dates fails on this input. -/
theorem C1_counterexample :
    (templateReconstruct filasC1).length = 2 ∧
    ((templateReconstruct filasC1).headD vacioT).situacion = some "ALTA" ∧
    ((templateReconstruct filasC1).headD vacioT).fRealAlta = some "03-03-2021" ∧
    ((templateReconstruct filasC1).headD vacioT).fRealSit = some "02-02-2020" ∧
    ((templateReconstruct filasC1).headD vacioT).fEfectoSit = some "02-02-2020" := by
  decide

/-- C4, counterexample.  The first row bears a recognisable identity and
    opens a worker, but that worker has no extractable name; when the
    second identity row arrives, the template reconstructor closes the open
    worker only if its name field is set, so the first worker is silently
    discarded and the output is empty.  The claim states the open worker
    is emitted as-is, even incomplete, at this transition. -/
theorem C4_counterexample :
    truthy ((extraerAfiliacionL (filaTextoT [some "12 345678901"])).map toS) = true ∧
    templateReconstruct [[some "12 345678901"], [some "13 345678902"]] = [] := by
  decide

/-- C6, counterexample.  Sanitizing a single corrupted-name record yields
    the empty sequence; re-applying the sanitizer to that output does not
    return it unchanged but raises, because the DataFrame rebuilt from an
    empty record list has no columns and dropna over the subset of
    missing identity columns raises KeyError. -/
theorem C6_counterexample :
    resOk? (scriptSanitize [mkEmpleadoS (some "01 234567890") none (some nombreCorrupto) none]) =
      some [] ∧
    resOk? (scriptSanitize []) = none := by
  decide

/-- C8.  The claim states the full script pipeline returns an empty
    output sequence without error on empty input or when no row yields an
    identity; instead the sanitization step raises: the DataFrame built
    from an empty record list has no columns, and pandas dropna with a
    subset of missing columns raises KeyError.  The template variant,
    which builds the frame and selects only the columns present, does
    return an empty result.  This theorem evaluates both at the failing
    inputs. -/
theorem C8_theorem :
    resOk? (scriptPipeline []) = none ∧
    resOk? (scriptPipeline [[some "hello"]]) = none ∧
    templateReconstruct [] = [] := by
  decide

/-- C3, counterexample.  On an ALTA line whose tail is
    08 540 12,345 1,80 1,50 3,30 17945 the pivot is found at tail index 3
    with the single intervening token 12,345, which matches neither a 3-4
    digit integer nor a 0,ddd decimal, so by the claim the part-time
    percentage should be 100; the script variant instead accepts any
    comma-decimal and assigns 12,345. -/
theorem C3_counterexample :
    firstPivotIdx (splitWsL "08 540 12,345 1,80 1,50 3,30 17945".data) = some 3 ∧
    narrowCtp "12,345".data = false ∧
    (parsearFilaFechasS
        "ALTA 01-01-2020 01-01-2020 08 540 12,345 1,80 1,50 3,30 17945".data).tail.ctp =
      some "12,345" := by
  decide

/-- C3 (amended).  For the narrow part-time test, used by every branch of
    the template variant and by the combined branch of the script variant:
    when the tail has at least six tokens and the first pivot sits at
    index 2, adjacent to the contract type, the part-time percentage is
    100; when it sits at index 3, the single intervening token becomes the
    part-time percentage exactly if it matches a 3-4 digit integer or a
    0,ddd decimal, and otherwise the percentage is 100.  The ALTA and
    standalone BAJA branches of the script variant instead accept any
    comma-decimal as the intervening token, as the counterexample shows. -/
theorem C3_theorem (fb : Bool) (partes : List (List Char)) :
    (6 ≤ partes.length → firstPivotIdx partes = some 2 →
      (tailFieldsFrom fb narrowCtp partes).ctp = some "100") ∧
    (6 ≤ partes.length → firstPivotIdx partes = some 3 →
      narrowCtp (partes.getD 2 []) = true →
      (tailFieldsFrom fb narrowCtp partes).ctp = some (toS (partes.getD 2 []))) ∧
    (6 ≤ partes.length → firstPivotIdx partes = some 3 →
      narrowCtp (partes.getD 2 []) = false →
      (tailFieldsFrom fb narrowCtp partes).ctp = some "100") := by
  refine ⟨?_, ?_, ?_⟩
  · intro hlen hpiv
    unfold tailFieldsFrom
    rw [if_neg (by omega), hpiv]
    simp
  · intro hlen hpiv hctp
    have hctp' : narrowCtp (partes[2]?.getD []) = true := by
      simpa [List.getD] using hctp
    unfold tailFieldsFrom
    rw [if_neg (by omega), hpiv]
    simp [hctp']
  · intro hlen hpiv hctp
    have hctp' : narrowCtp (partes[2]?.getD []) = false := by
      simpa [List.getD] using hctp
    unfold tailFieldsFrom
    rw [if_neg (by omega), hpiv]
    simp [hctp']

/-- C3, witness instances of the amended theorem at concrete tails: pivot
    adjacent to the contract type, a matching intervening token 250, and a
    non-matching intervening token ABC. -/
theorem C3_witness :
    (tailFieldsFrom false narrowCtp (splitWsL "08 300 1,80 1,50 3,30 10".data)).ctp =
      some "100" ∧
    (tailFieldsFrom false narrowCtp (splitWsL "08 540 250 1,80 1,50 3,30 10".data)).ctp =
      some (toS ((splitWsL "08 540 250 1,80 1,50 3,30 10".data).getD 2 [])) ∧
    (tailFieldsFrom false narrowCtp (splitWsL "08 540 ABC 1,80 1,50 3,30 10".data)).ctp =
      some "100" :=
  ⟨(C3_theorem false _).1 (by decide) (by decide),
   (C3_theorem false _).2.1 (by decide) (by decide) (by decide),
   (C3_theorem false _).2.2 (by decide) (by decide) (by decide)⟩

/-- C10.  When the first pivot-shaped token sits at tail index 0 the
    Python test idx_tipos and idx_tipos >= 2 is falsy, so both variants
    behave exactly as when no pivot is found at all: the script variant
    takes the last four tail tokens as rate, base, total and days with
    part-time percentage 100, and the template variant, having no
    fallback, leaves all five pivot-anchored fields unset; contribution
    group and contract type are assigned positionally in both. -/
theorem C10_theorem (ctpOk : List Char → Bool) (partes : List (List Char))
    (hlen : 6 ≤ partes.length) (hpiv : firstPivotIdx partes = some 0) :
    tailFieldsFrom true ctpOk partes =
      ⟨if isdigitTok (partes.headD []) then some (toS (partes.headD [])) else none,
       (partes.get? 1).map toS, some "100",
       (partes.get? (partes.length - 4)).map toS,
       (partes.get? (partes.length - 3)).map toS,
       (partes.get? (partes.length - 2)).map toS,
       (partes.get? (partes.length - 1)).map toS⟩ ∧
    tailFieldsFrom false ctpOk partes =
      ⟨if isdigitTok (partes.headD []) then some (toS (partes.headD [])) else none,
       (partes.get? 1).map toS, none, none, none, none, none⟩ := by
  constructor <;> (unfold tailFieldsFrom; rw [if_neg (by omega), hpiv]; simp)

/-- C10, witness instance at a concrete tail whose first token 1,80 is
    pivot shaped. -/
theorem C10_witness :
    tailFieldsFrom true narrowCtp (splitWsL "1,80 540 250 9,99 1,50 3,30".data) =
      ⟨if isdigitTok ((splitWsL "1,80 540 250 9,99 1,50 3,30".data).headD []) then
          some (toS ((splitWsL "1,80 540 250 9,99 1,50 3,30".data).headD []))
        else none,
       ((splitWsL "1,80 540 250 9,99 1,50 3,30".data).get? 1).map toS, some "100",
       ((splitWsL "1,80 540 250 9,99 1,50 3,30".data).get?
          ((splitWsL "1,80 540 250 9,99 1,50 3,30".data).length - 4)).map toS,
       ((splitWsL "1,80 540 250 9,99 1,50 3,30".data).get?
          ((splitWsL "1,80 540 250 9,99 1,50 3,30".data).length - 3)).map toS,
       ((splitWsL "1,80 540 250 9,99 1,50 3,30".data).get?
          ((splitWsL "1,80 540 250 9,99 1,50 3,30".data).length - 2)).map toS,
       ((splitWsL "1,80 540 250 9,99 1,50 3,30".data).get?
          ((splitWsL "1,80 540 250 9,99 1,50 3,30".data).length - 1)).map toS⟩ ∧
    tailFieldsFrom false narrowCtp (splitWsL "1,80 540 250 9,99 1,50 3,30".data) =
      ⟨if isdigitTok ((splitWsL "1,80 540 250 9,99 1,50 3,30".data).headD []) then
          some (toS ((splitWsL "1,80 540 250 9,99 1,50 3,30".data).headD []))
        else none,
       ((splitWsL "1,80 540 250 9,99 1,50 3,30".data).get? 1).map toS,
       none, none, none, none, none⟩ :=
  C10_theorem narrowCtp _ (by decide) (by decide)

theorem windowAttach_length (a d : Option String) (ff : FilaFechas)
    (emps : List EmpleadoS) : (windowAttach a d ff emps).length = emps.length := by
  unfold windowAttach
  dsimp only
  split
  · split
    · simp
    · rfl
  · rfl

theorem retroGo_length (rs : List Row) (texto : List Char) (emps : List EmpleadoS) :
    (retroGo rs texto emps).length = emps.length := by
  induction rs with
  | nil => rfl
  | cons r rs ih =>
    unfold retroGo
    dsimp only
    split
    · exact windowAttach_length _ _ _ _
    · exact ih

theorem scriptStep_length (prev : List Row) (row : Row) (st : SState) :
    st.empleados.length ≤ (scriptStep prev row st).empleados.length ∧
    (scriptStep prev row st).empleados.length ≤ st.empleados.length + 1 := by
  unfold scriptStep
  dsimp only
  split
  · simp
  · split
    · split
      · simp
      · simp [retroAttach, retroGo_length]
    · split
      · split <;> simp
      · simp

theorem scriptLoopGo_length (rows prev : List Row) (st : SState) :
    (scriptLoopGo prev rows st).empleados.length ≤ st.empleados.length + rows.length := by
  induction rows generalizing prev st with
  | nil => simp [scriptLoopGo]
  | cons r rest ih =>
    have h1 := (scriptStep_length prev r st).2
    have h2 := ih (prev ++ [r]) (scriptStep prev r st)
    simp only [scriptLoopGo, List.length_cons]
    omega

theorem templateIdPhase_length (texto : List Char) (afil dni : Option String)
    (st : TState) :
    st.empleados.length ≤ (templateIdPhase texto afil dni st).empleados.length ∧
    (templateIdPhase texto afil dni st).empleados.length ≤ st.empleados.length + 1 := by
  unfold templateIdPhase
  dsimp only
  split
  · rcases st.actual with _ | w
    · simp
    · dsimp only
      split <;> simp
  · simp

theorem templateFechaPhase_length (texto : List Char) (afil dni : Option String)
    (st1 : TState) :
    st1.empleados.length ≤ (templateFechaPhase texto afil dni st1).empleados.length ∧
    (templateFechaPhase texto afil dni st1).empleados.length ≤ st1.empleados.length + 2 := by
  unfold templateFechaPhase
  split
  · simp
  · dsimp only
    split
    · simp
    · split
      · simp
      · split <;> simp

theorem templateStep_length (row : Row) (st : TState) :
    st.empleados.length ≤ (templateStep row st).empleados.length ∧
    (templateStep row st).empleados.length ≤ st.empleados.length + 3 := by
  have h1 := templateIdPhase_length (filaTextoT row)
    ((extraerAfiliacionL (filaTextoT row)).map toS)
    ((extraerDniL (filaTextoT row)).map toS) st
  have h2 := templateFechaPhase_length (filaTextoT row)
    ((extraerAfiliacionL (filaTextoT row)).map toS)
    ((extraerDniL (filaTextoT row)).map toS)
    (templateIdPhase (filaTextoT row)
      ((extraerAfiliacionL (filaTextoT row)).map toS)
      ((extraerDniL (filaTextoT row)).map toS) st)
  unfold templateStep
  dsimp only
  omega

theorem templateFold_length (rows : List Row) (st : TState) :
    (rows.foldl (fun s r => templateStep r s) st).empleados.length ≤
      st.empleados.length + 3 * rows.length := by
  induction rows generalizing st with
  | nil => simp
  | cons r rest ih =>
    have h1 := (templateStep_length r st).2
    have h2 := ih (templateStep r st)
    simp only [List.foldl_cons, List.length_cons]
    omega

/-- C7.  The embedded reconstructors are total Lean functions over
    arbitrary row sequences, so every input is processed to a result
    rather than an error; each step of either variant leaves the emitted
    list no shorter and appends at most one record in the script variant
    and at most three in the template variant, and a whole pass emits a
    bounded number of records. -/
theorem C7_theorem :
    (∀ prev row st, st.empleados.length ≤ (scriptStep prev row st).empleados.length ∧
      (scriptStep prev row st).empleados.length ≤ st.empleados.length + 1) ∧
    (∀ row st, st.empleados.length ≤ (templateStep row st).empleados.length ∧
      (templateStep row st).empleados.length ≤ st.empleados.length + 3) ∧
    (∀ rows, (scriptReconstruct rows).length ≤ rows.length + 1) ∧
    (∀ rows, (templateReconstruct rows).length ≤ 3 * rows.length + 1) := by
  refine ⟨scriptStep_length, templateStep_length, ?_, ?_⟩
  · intro rows
    have h := scriptLoopGo_length rows [] ⟨[], none⟩
    unfold scriptReconstruct
    dsimp only
    simp only [List.length_nil, Nat.zero_add] at h
    rcases hx : (scriptLoopGo [] rows ⟨[], none⟩).actual with _ | w <;> simp <;> omega
  · intro rows
    have h := templateFold_length rows ⟨[], none⟩
    unfold templateReconstruct
    dsimp only
    simp only [List.length_nil, Nat.zero_add] at h
    rcases hx : (rows.foldl (fun s r => templateStep r s) ⟨[], none⟩).actual with _ | w
    · simp
      omega
    · dsimp only
      split <;> simp <;> omega

theorem takeDate_ne_nil {l d r : List Char} (h : takeDate l = some (d, r)) : d ≠ [] := by
  unfold takeDate at h
  split at h
  · split at h
    · simp only [Option.some.injEq, Prod.mk.injEq] at h
      obtain ⟨h1, -⟩ := h
      subst h1
      simp
    · exact absurd h (by simp)
  · exact absurd h (by simp)

theorem matchAlta2At_ne_nil {l g1 g2 : List Char}
    (h : matchAlta2At l = some (g1, g2)) : g1 ≠ [] ∧ g2 ≠ [] := by
  unfold matchAlta2At at h
  split at h
  · rcases h1 : skipWs1 (l.drop 4) with _ | r1 <;> simp only [h1] at h
    · exact absurd h (by simp)
    · rcases h2 : takeDate r1 with _ | ⟨d1, r2⟩ <;> simp only [h2] at h
      · exact absurd h (by simp)
      · rcases h3 : skipWs1 r2 with _ | r3 <;> simp only [h3] at h
        · exact absurd h (by simp)
        · rcases h4 : takeDate r3 with _ | ⟨d2, r4⟩ <;> simp only [h4] at h
          · exact absurd h (by simp)
          · simp only [Option.some.injEq, Prod.mk.injEq] at h
            obtain ⟨hh1, hh2⟩ := h
            subst hh1
            subst hh2
            exact ⟨takeDate_ne_nil h2, takeDate_ne_nil h4⟩
  · exact absurd h (by simp)

theorem searchAlta2_ne_nil {l g1 g2 : List Char}
    (h : searchAlta2 l = some (g1, g2)) : g1 ≠ [] ∧ g2 ≠ [] := by
  induction l with
  | nil => simp [searchAlta2] at h
  | cons c cs ih =>
    unfold searchAlta2 at h
    rcases hm : matchAlta2At (c :: cs) with _ | g <;> rw [hm] at h
    · exact ih h
    · injection h with h'
      subst h'
      exact matchAlta2At_ne_nil hm

theorem parseTCore_combined {t a1 a2 b1 b2 b3 b4 : List Char}
    (hA : containsSub altaPat t = true) (hB : containsSub bajaPat t = true)
    (halta : searchAlta2 t = some (a1, a2))
    (hbaja : (findAllBaja4 t).getLast? = some (b1, b2, b3, b4)) :
    parseTCore t = ⟨some "ALTA/BAJA", some (toS a1), some (toS a2),
      some (toS b3), some (toS b4), tailCombinada false t⟩ := by
  have ha1 : a1 ≠ [] := (searchAlta2_ne_nil halta).1
  simp only [parseTCore, hA, hB, Bool.and_self, if_true]
  unfold fechasCombinadas
  rw [halta, hbaja]
  dsimp only [Option.map]
  have htr : truthy (some (toS a1)) = true := by
    rcases a1 with _ | ⟨c, cs⟩
    · exact absurd rfl ha1
    · rfl
  rw [htr]
  simp

theorem parseSCore_combined {t a1 a2 b1 b2 b3 b4 : List Char}
    (hA : containsSub altaPat t = true) (hB : containsSub bajaPat t = true)
    (halta : searchAlta2 t = some (a1, a2))
    (hbaja : (findAllBaja4 t).getLast? = some (b1, b2, b3, b4)) :
    parseSCore t = ⟨some "ALTA/BAJA", some (toS a1), some (toS a2),
      some (toS b3), some (toS b4), tailCombinada true t⟩ := by
  have ha1 : a1 ≠ [] := (searchAlta2_ne_nil halta).1
  simp only [parseSCore, hA, hB, Bool.and_self, if_true]
  unfold fechasCombinadas
  rw [halta, hbaja]
  dsimp only [Option.map]
  have htr : truthy (some (toS a1)) = true := by
    rcases a1 with _ | ⟨c, cs⟩
    · exact absurd rfl ha1
    · rfl
  rw [htr]
  simp

theorem templateIdPhase_skip {texto : List Char} {afil dni : Option String} {st : TState}
    (h1 : truthy afil = false) (h2 : truthy dni = false) :
    templateIdPhase texto afil dni st = st := by
  unfold templateIdPhase
  rw [h1, h2]
  simp

theorem templateFechaPhase_split {texto : List Char} {afil dni : Option String}
    {st1 : TState} {emp : EmpleadoT}
    (hopen : st1.actual = some emp)
    (hsit : (parseTCore texto).situacion = some "ALTA/BAJA") :
    templateFechaPhase texto afil dni st1 =
      ⟨st1.empleados ++ [empAltaOf emp (parseTCore texto), empBajaOf emp (parseTCore texto)],
        some { vacioT with
          afiliacion := if truthy afil then afil else none
          dni := if truthy dni then dni else none }⟩ := by
  unfold templateFechaPhase
  rw [hopen]
  dsimp only
  rw [hsit]
  dsimp only
  rw [if_pos rfl]

/-- C1 (amended).  When the open worker of the template variant carries no
    termination dates yet, a line containing both an ALTA pair and at
    least one four-date BAJA group yields exactly two appended records
    sharing the identity fields of the open worker: the ALTA record with
    only the two hire dates of the first ALTA match and no termination
    dates, and the BAJA record whose termination dates are the third and
    fourth groups of the last four-date BAJA occurrence of the line.  The
    restriction to an open worker without previously merged termination
    dates is forced by the counterexample: the split copies the open
    worker, so stale termination dates would survive on the ALTA record. -/
theorem C1_theorem (st : TState) (emp : EmpleadoT) (row : Row)
    (a1 a2 b1 b2 b3 b4 : List Char)
    (hopen : st.actual = some emp)
    (hfrs : emp.fRealSit = none) (hfes : emp.fEfectoSit = none)
    (hnoafil : truthy ((extraerAfiliacionL (filaTextoT row)).map toS) = false)
    (hnodni : truthy ((extraerDniL (filaTextoT row)).map toS) = false)
    (hA : containsSub altaPat (filaTextoT row) = true)
    (hB : containsSub bajaPat (filaTextoT row) = true)
    (halta : searchAlta2 (filaTextoT row) = some (a1, a2))
    (hbaja : (findAllBaja4 (filaTextoT row)).getLast? = some (b1, b2, b3, b4)) :
    ∃ ra rb, (templateStep row st).empleados = st.empleados ++ [ra, rb] ∧
      ra.situacion = some "ALTA" ∧ rb.situacion = some "BAJA" ∧
      ra.afiliacion = emp.afiliacion ∧ rb.afiliacion = emp.afiliacion ∧
      ra.dni = emp.dni ∧ rb.dni = emp.dni ∧
      ra.nombre = emp.nombre ∧ rb.nombre = emp.nombre ∧
      ra.fRealAlta = some (toS a1) ∧ ra.fEfectoAlta = some (toS a2) ∧
      ra.fRealSit = none ∧ ra.fEfectoSit = none ∧
      rb.fRealAlta = some (toS a1) ∧ rb.fEfectoAlta = some (toS a2) ∧
      rb.fRealSit = some (toS b3) ∧ rb.fEfectoSit = some (toS b4) := by
  have hp := parseTCore_combined hA hB halta hbaja
  have hid := @templateIdPhase_skip (filaTextoT row) _ _ st hnoafil hnodni
  have hmain : templateStep row st =
      ⟨st.empleados ++ [empAltaOf emp (parseTCore (filaTextoT row)),
                        empBajaOf emp (parseTCore (filaTextoT row))],
        some { vacioT with
          afiliacion :=
            if truthy ((extraerAfiliacionL (filaTextoT row)).map toS) then
              (extraerAfiliacionL (filaTextoT row)).map toS
            else none
          dni :=
            if truthy ((extraerDniL (filaTextoT row)).map toS) then
              (extraerDniL (filaTextoT row)).map toS
            else none }⟩ := by
    unfold templateStep
    dsimp only
    rw [hid]
    exact templateFechaPhase_split hopen (by rw [hp])
  refine ⟨empAltaOf emp (parseTCore (filaTextoT row)),
          empBajaOf emp (parseTCore (filaTextoT row)), ?_⟩
  rw [hmain]
  simp [empAltaOf, empBajaOf, hp, hfrs, hfes]

/-- C1, witness instance of the amended theorem: a concrete open worker
    with empty episode and a concrete combined line. -/
theorem C1_witness :
    ∃ ra rb,
      (templateStep
          [some "ALTA 03-03-2021 03-03-2021 X BAJA 04-04-2021 04-04-2021 05-05-2021 05-05-2021 Y"]
          ⟨[], some { vacioT with afiliacion := some "12 345678901" }⟩).empleados =
        [] ++ [ra, rb] ∧
      ra.situacion = some "ALTA" ∧ rb.situacion = some "BAJA" ∧
      ra.afiliacion = some "12 345678901" ∧ rb.afiliacion = some "12 345678901" ∧
      ra.dni = none ∧ rb.dni = none ∧
      ra.nombre = none ∧ rb.nombre = none ∧
      ra.fRealAlta = some (toS "03-03-2021".data) ∧
      ra.fEfectoAlta = some (toS "03-03-2021".data) ∧
      ra.fRealSit = none ∧ ra.fEfectoSit = none ∧
      rb.fRealAlta = some (toS "03-03-2021".data) ∧
      rb.fEfectoAlta = some (toS "03-03-2021".data) ∧
      rb.fRealSit = some (toS "05-05-2021".data) ∧
      rb.fEfectoSit = some (toS "05-05-2021".data) :=
  C1_theorem ⟨[], some { vacioT with afiliacion := some "12 345678901" }⟩
    { vacioT with afiliacion := some "12 345678901" }
    [some "ALTA 03-03-2021 03-03-2021 X BAJA 04-04-2021 04-04-2021 05-05-2021 05-05-2021 Y"]
    "03-03-2021".data "03-03-2021".data
    "04-04-2021".data "04-04-2021".data "05-05-2021".data "05-05-2021".data
    rfl rfl rfl (by decide) (by decide) (by decide) (by decide) (by decide) (by decide)

/-- C4 (amended).  The script variant does emit the open worker as-is,
    even incomplete, when an identity-bearing row arrives: its emitted
    list is extended with exactly the open worker, unchanged, and a new
    worker opens with the extracted identity and an empty episode.  The
    template variant instead emits the open worker only when its name
    field is set and silently discards it otherwise, as the counterexample
    shows. -/
theorem C4_theorem (prev : List Row) (row : Row) (st : SState) (w : EmpleadoS)
    (hopen : st.actual = some w)
    (hne : (stripL (filaTextoS row)).isEmpty = false)
    (hnf : tieneFechaL (filaTextoS row) = false)
    (hid : (truthy ((extraerAfiliacionL (stripL (filaTextoS row))).map toS) ||
            truthy ((extraerDniL (stripL (filaTextoS row))).map toS)) = true) :
    (scriptStep prev row st).empleados = st.empleados ++ [w] ∧
    ∃ nuevo, (scriptStep prev row st).actual = some nuevo ∧
      nuevo.afiliacion = (extraerAfiliacionL (stripL (filaTextoS row))).map toS ∧
      nuevo.dni = (extraerDniL (stripL (filaTextoS row))).map toS ∧
      nuevo.situacion = none ∧ nuevo.fRealAlta = none ∧ nuevo.fEfectoAlta = none ∧
      nuevo.fRealSit = none ∧ nuevo.fEfectoSit = none ∧
      nuevo.gcm = none ∧ nuevo.tc = none ∧ nuevo.ctp = none ∧
      nuevo.tipos = none ∧ nuevo.ims = none ∧ nuevo.total = none ∧
      nuevo.diasCot = none := by
  have hla : lookaheadAdjust row w = w := by
    unfold lookaheadAdjust
    dsimp only
    rw [hnf]
    simp
  unfold scriptStep
  try dsimp only
  rw [hne, hnf, hid]
  try dsimp only
  rw [hopen]
  try dsimp only
  rw [hla]
  exact ⟨rfl, _, rfl, rfl, rfl, rfl, rfl, rfl, rfl, rfl, rfl, rfl, rfl, rfl, rfl, rfl, rfl⟩

/-- C4, witness instance of the amended theorem: a concrete nameless open
    worker emitted as-is by the script step at a concrete identity row. -/
theorem C4_witness :
    (scriptStep [] [some "12 345678901"]
        ⟨[], some (mkEmpleadoS none none none none)⟩).empleados =
      [] ++ [mkEmpleadoS none none none none] ∧
    ∃ nuevo,
      (scriptStep [] [some "12 345678901"]
          ⟨[], some (mkEmpleadoS none none none none)⟩).actual = some nuevo ∧
      nuevo.afiliacion =
        (extraerAfiliacionL (stripL (filaTextoS [some "12 345678901"]))).map toS ∧
      nuevo.dni = (extraerDniL (stripL (filaTextoS [some "12 345678901"]))).map toS ∧
      nuevo.situacion = none ∧ nuevo.fRealAlta = none ∧ nuevo.fEfectoAlta = none ∧
      nuevo.fRealSit = none ∧ nuevo.fEfectoSit = none ∧
      nuevo.gcm = none ∧ nuevo.tc = none ∧ nuevo.ctp = none ∧
      nuevo.tipos = none ∧ nuevo.ims = none ∧ nuevo.total = none ∧
      nuevo.diasCot = none :=
  C4_theorem [] [some "12 345678901"] ⟨[], some (mkEmpleadoS none none none none)⟩
    (mkEmpleadoS none none none none) rfl (by decide) (by decide) (by decide)

/-- C6 (amended).  Sanitizing an already-sanitized sequence returns it
    unchanged provided that sequence is nonempty: the two dropping filters
    are already satisfied and re-sorting the sorted sequence is the
    identity under the stable-sort model of the sort.  When the sanitized
    output is empty, re-applying the sanitizer raises instead of
    returning it, as the counterexample shows. -/
theorem C6_theorem (l out : List EmpleadoS)
    (h : scriptSanitize l = .ok out) (hne : out ≠ []) :
    scriptSanitize out = .ok out := by
  unfold scriptSanitize at h
  split at h
  · exact absurd h (by simp)
  · simp only [Except.ok.injEq] at h
    subst h
    unfold scriptSanitize
    rw [if_neg (by simpa using hne)]
    have hmem : ∀ e ∈ List.insertionSort sanLe
        ((l.filter (fun e => e.nombre != some nombreCorrupto)).filter (fun e =>
          !(e.afiliacion == none && e.dni == none && e.nombre == none))),
        (e.nombre != some nombreCorrupto) = true ∧
        (!(e.afiliacion == none && e.dni == none && e.nombre == none)) = true := by
      intro e he
      rw [List.mem_insertionSort, List.mem_filter, List.mem_filter] at he
      exact ⟨he.1.2, he.2⟩
    dsimp only
    rw [List.filter_eq_self.mpr (fun e he => (hmem e he).1),
        List.filter_eq_self.mpr (fun e he => (hmem e he).2),
        List.Sorted.insertionSort_eq (List.sorted_insertionSort sanLe _)]

/-- C6, witness instance of the amended theorem at a concrete singleton
    sequence that the sanitizer keeps. -/
theorem C6_witness :
    scriptSanitize [mkEmpleadoS (some "10 000000001") none none none] =
      .ok [mkEmpleadoS (some "10 000000001") none none none] :=
  C6_theorem [mkEmpleadoS (some "10 000000001") none none none]
    [mkEmpleadoS (some "10 000000001") none none none] (by rfl) (by decide)

/-- C9.  Whichever branch of the script parser applies, when the stripped
    data tail splits into fewer than six whitespace tokens the parser sets
    only the status tag and the matched dates and leaves every coded field
    unset: a minimum of six tail tokens is required before contribution
    group, contract type, part-time percentage, rate, base, total or days
    is assigned. -/
theorem C9_theorem (t : List Char) :
    (∀ g1 g2 rest, containsSub altaPat t = true → containsSub bajaPat t = false →
      searchAlta2R t = some (g1, g2, rest) →
      (splitWsL (stripL (stripTrailAlnumCode rest))).length < 6 →
      parseSCore t = ⟨some "ALTA", some (toS g1), some (toS g2), none, none, tfNada⟩) ∧
    (∀ g1 g2 g3 g4 rest, containsSub altaPat t = false → containsSub bajaPat t = true →
      searchBaja4R t = some (g1, g2, g3, g4, rest) →
      (splitWsL (stripL (stripTrailLetterCodes rest))).length < 6 →
      parseSCore t =
        ⟨some "BAJA", some (toS g1), some (toS g2), some (toS g3), some (toS g4), tfNada⟩) ∧
    (∀ a1 a2 b1 b2 b3 b4 suf g1 g2 g3 g4 rest,
      containsSub altaPat t = true → containsSub bajaPat t = true →
      searchAlta2 t = some (a1, a2) →
      (findAllBaja4 t).getLast? = some (b1, b2, b3, b4) →
      suffixFromLast bajaPat t = some suf →
      searchBaja4R suf = some (g1, g2, g3, g4, rest) →
      (splitWsL (stripL (stripTrailLetterCodes rest))).length < 6 →
      parseSCore t = ⟨some "ALTA/BAJA", some (toS a1), some (toS a2),
        some (toS b3), some (toS b4), tfNada⟩) := by
  refine ⟨?_, ?_, ?_⟩
  · intro g1 g2 rest hA hB hsr hlen
    simp [parseSCore, hA, hB, hsr, tailFieldsFrom_small _ _ _ hlen]
  · intro g1 g2 g3 g4 rest hA hB hsr hlen
    simp [parseSCore, hA, hB, hsr, tailFieldsFrom_small _ _ _ hlen]
  · intro a1 a2 b1 b2 b3 b4 suf g1 g2 g3 g4 rest hA hB halta hbaja hsuf hsr hlen
    rw [parseSCore_combined hA hB halta hbaja]
    have htail : tailCombinada true t = tfNada := by
      unfold tailCombinada
      rw [hsuf]
      dsimp only
      rw [hsr]
      dsimp only
      exact tailFieldsFrom_small _ _ _ hlen
    rw [htail]

/-- C9, witness instances: an ALTA line whose tail loses its final token
    to the code strip and keeps five tokens, a BAJA line with a two-token
    tail, and a combined line with a two-token tail. -/
theorem C9_witness :
    parseSCore "ALTA 10-05-2018 10-05-2018 08 540 1,80 1,50 3,30 1794".data =
      ⟨some "ALTA", some (toS "10-05-2018".data), some (toS "10-05-2018".data),
        none, none, tfNada⟩ ∧
    parseSCore "BAJA 15-07-2024 15-07-2024 24-07-2024 24-07-2024 08 300".data =
      ⟨some "BAJA", some (toS "15-07-2024".data), some (toS "15-07-2024".data),
        some (toS "24-07-2024".data), some (toS "24-07-2024".data), tfNada⟩ ∧
    parseSCore
        "ALTA 01-01-2020 01-01-2020 BAJA 01-01-2020 01-01-2020 02-02-2020 02-02-2020 08 300".data =
      ⟨some "ALTA/BAJA", some (toS "01-01-2020".data), some (toS "01-01-2020".data),
        some (toS "02-02-2020".data), some (toS "02-02-2020".data), tfNada⟩ :=
  ⟨(C9_theorem _).1 "10-05-2018".data "10-05-2018".data
      "08 540 1,80 1,50 3,30 1794".data (by decide) (by decide) (by decide) (by decide),
   (C9_theorem _).2.1 "15-07-2024".data "15-07-2024".data "24-07-2024".data
      "24-07-2024".data "08 300".data (by decide) (by decide) (by decide) (by decide),
   (C9_theorem _).2.2 "01-01-2020".data "01-01-2020".data "01-01-2020".data
      "01-01-2020".data "02-02-2020".data "02-02-2020".data
      "BAJA 01-01-2020 01-01-2020 02-02-2020 02-02-2020 08 300".data
      "01-01-2020".data "01-01-2020".data "02-02-2020".data "02-02-2020".data
      "08 300".data (by decide) (by decide) (by decide) (by decide) (by decide)
      (by decide) (by decide)⟩

end VidaLaboral
